import Mathlib

set_option autoImplicit false

/-!
Verification of the semantic indexing / rule-extraction core of `ruleforge-be`.

The definitions below are a shallow embedding of
`app/services/qdrant_service.py` and `app/services/rule_generator.py`.
External collaborators (the Qdrant backend, the embedding model, the Groq
API, `json.loads`) are modelled as explicit parameters: a boolean for
enabled/disabled client state, a boolean for upsert success, an outcome
value for the chat-completion call, and a `String → Option ParsedDoc`
function for JSON decoding.  Machine floats (similarity scores) are carried
as opaque values that the modelled control flow never inspects.
-/

namespace RuleForge

/-! ### Python string primitives -/

/-- Uppercase-to-lowercase table for the Vietnamese alphabet (all tone marks),
used to model Python `str.lower()` on the characters the service inspects. -/
def viUpperTable : List (Char × Char) :=
  [('Á', 'á'), ('À', 'à'), ('Ả', 'ả'), ('Ã', 'ã'), ('Ạ', 'ạ'),
   ('Ă', 'ă'), ('Ắ', 'ắ'), ('Ằ', 'ằ'), ('Ẳ', 'ẳ'), ('Ẵ', 'ẵ'), ('Ặ', 'ặ'),
   ('Â', 'â'), ('Ấ', 'ấ'), ('Ầ', 'ầ'), ('Ẩ', 'ẩ'), ('Ẫ', 'ẫ'), ('Ậ', 'ậ'),
   ('É', 'é'), ('È', 'è'), ('Ẻ', 'ẻ'), ('Ẽ', 'ẽ'), ('Ẹ', 'ẹ'),
   ('Ê', 'ê'), ('Ế', 'ế'), ('Ề', 'ề'), ('Ể', 'ể'), ('Ễ', 'ễ'), ('Ệ', 'ệ'),
   ('Í', 'í'), ('Ì', 'ì'), ('Ỉ', 'ỉ'), ('Ĩ', 'ĩ'), ('Ị', 'ị'),
   ('Ó', 'ó'), ('Ò', 'ò'), ('Ỏ', 'ỏ'), ('Õ', 'õ'), ('Ọ', 'ọ'),
   ('Ô', 'ô'), ('Ố', 'ố'), ('Ồ', 'ồ'), ('Ổ', 'ổ'), ('Ỗ', 'ỗ'), ('Ộ', 'ộ'),
   ('Ơ', 'ơ'), ('Ớ', 'ớ'), ('Ờ', 'ờ'), ('Ở', 'ở'), ('Ỡ', 'ỡ'), ('Ợ', 'ợ'),
   ('Ú', 'ú'), ('Ù', 'ù'), ('Ủ', 'ủ'), ('Ũ', 'ũ'), ('Ụ', 'ụ'),
   ('Ư', 'ư'), ('Ứ', 'ứ'), ('Ừ', 'ừ'), ('Ử', 'ử'), ('Ữ', 'ữ'), ('Ự', 'ự'),
   ('Ý', 'ý'), ('Ỳ', 'ỳ'), ('Ỷ', 'ỷ'), ('Ỹ', 'ỹ'), ('Ỵ', 'ỵ'),
   ('Đ', 'đ')]

/-- Model of Python `str.lower()` on one character, for ASCII letters and the
Vietnamese alphabet (the only character classes the embedded code tests). -/
def pyLowerChar (c : Char) : Char :=
  if 65 ≤ c.toNat ∧ c.toNat ≤ 90 then Char.ofNat (c.toNat + 32)
  else (viUpperTable.lookup c).getD c

/-- Model of Python `str.lower()`. -/
def pyLower (s : String) : String := ⟨s.data.map pyLowerChar⟩

/-- Does `needle` occur at the head of `hay`? -/
def headMatch : List Char → List Char → Bool
  | [], _ => true
  | _ :: _, [] => false
  | a :: as, b :: bs => a == b && headMatch as bs

/-- Does `needle` occur somewhere in `hay`?  Models Python `needle in hay`. -/
def hasSub : List Char → List Char → Bool
  | [], needle => needle.isEmpty
  | a :: t, needle => headMatch needle (a :: t) || hasSub t needle

/-- Model of the Python substring test `needle in hay` on strings. -/
def strContains (hay needle : String) : Bool := hasSub hay.data needle.data

/-- Model of Python `hay.startswith(needle)`. -/
def startsWithW (hay needle : String) : Bool := headMatch needle.data hay.data

/-- Model of Python `hay.endswith(needle)`. -/
def endsWithW (hay needle : String) : Bool :=
  headMatch needle.data.reverse hay.data.reverse

/-- Drop leading whitespace characters. -/
def dropLeadingWs : List Char → List Char
  | [] => []
  | c :: t => if c.isWhitespace then dropLeadingWs t else c :: t

/-- Model of Python `s.strip()`: remove leading and trailing whitespace. -/
def pyStrip (s : String) : String :=
  ⟨(dropLeadingWs (dropLeadingWs s.data).reverse).reverse⟩

/-- Model of the Python slice `s[:n]`. -/
def pyTake (s : String) (n : Nat) : String := ⟨s.data.take n⟩

/-- Split a character list on `'.'`, keeping empty pieces,
as Python `text.split('.')` does. -/
def splitDot : List Char → List (List Char)
  | [] => [[]]
  | c :: t =>
    match splitDot t with
    | [] => [[]]
    | cur :: rest => if c == '.' then [] :: cur :: rest else (c :: cur) :: rest

/-- Model of Python `text.split('.')`. -/
def pySplitDot (s : String) : List String := (splitDot s.data).map (fun l => ⟨l⟩)

/-- Model of the Python format `f"{n:03d}"`. -/
def pad3 (n : Nat) : String :=
  let s := toString n
  if s.length < 3 then ⟨List.replicate (3 - s.length) '0' ++ s.data⟩ else s

/-! ### Data model of the vector index (`qdrant_service.py`)

A variable record as read from the relational `variables` table
(spec section 3, "VariableRecord"; the fields are exactly those the sync
engine copies into `var_dict` in `sync_variables_from_database`). -/

structure VariableRecord where
  variable_code : String
  variable_name : String
  variable_description : String
  des_var_eng : String
  variable_type : String
  parameter_id : String
  group_parameter : String
  customer_loan_level : String
  group_level_1 : String
  group_level_2 : String
deriving DecidableEq

/-- The searchable text built by `QdrantService.add_variables`:
`f"{variable_name} {variable_description} {des_var_eng}"`. -/
def searchable_text_of (v : VariableRecord) : String :=
  v.variable_name ++ " " ++ v.variable_description ++ " " ++ v.des_var_eng

/-- Python `not s.strip()`: the string is empty or whitespace only. -/
def isBlankText (s : String) : Bool := (pyStrip s).data.isEmpty

/-- The payload stored on a `type="variable"` point by `add_variables`
(the constant `"type": "variable"` key is implicit: the index list below
holds only variable-type points, which is the population every modelled
operation filters on). -/
structure VariablePayload where
  variable_code : String
  variable_name : String
  variable_description : String
  des_var_eng : String
  variable_type : String
  group_parameter : String
  customer_loan_level : String
  group_level_1 : String
  group_level_2 : String
  searchable_text : String
deriving DecidableEq

/-- The point payload `add_variables` builds for one record. -/
def payload_of (v : VariableRecord) : VariablePayload :=
  { variable_code := v.variable_code
    variable_name := v.variable_name
    variable_description := v.variable_description
    des_var_eng := v.des_var_eng
    variable_type := v.variable_type
    group_parameter := v.group_parameter
    customer_loan_level := v.customer_loan_level
    group_level_1 := v.group_level_1
    group_level_2 := v.group_level_2
    searchable_text := searchable_text_of v }

/-- `QdrantService.add_variables`.  `enabled` models
`self.client and self.embedding_model and SENTENCE_TRANSFORMERS_AVAILABLE`;
`upsertOk` models whether `client.upsert` succeeds (on an upsert exception
the method's `except` clause returns `False`).  Returns the index after the
call together with the boolean result. -/
def add_variables (enabled upsertOk : Bool) (index : List VariablePayload)
    (vars : List VariableRecord) : List VariablePayload × Bool :=
  if enabled = false then (index, false)
  else
    let points := (vars.filter
      (fun v => !(isBlankText (searchable_text_of v)))).map payload_of
    if points.isEmpty then (index, false)
    else if upsertOk then (index ++ points, true) else (index, false)

/-- The single-page scroll cap in `_get_existing_variable_codes`
(`limit=10000`; the returned `next_page_offset` is never followed). -/
def scroll_limit : Nat := 10000

/-- `QdrantService._get_existing_variable_codes`: the `variable_code` payload
values of (at most `scroll_limit`) variable-type points. -/
def get_existing_variable_codes (index : List VariablePayload) : List String :=
  (index.take scroll_limit).map (fun p => p.variable_code)

/-- Is the record's `variable_code` among the codes scrolled from the index? -/
def codeIndexed (index : List VariablePayload) (v : VariableRecord) : Bool :=
  (get_existing_variable_codes index).any (fun c => c == v.variable_code)

/-- The `variables_to_sync` list built by `sync_variables_from_database`. -/
def toSyncList (db : List VariableRecord) (index : List VariablePayload) :
    List VariableRecord :=
  db.filter (fun v => !codeIndexed index v)

/-- The `skipped_count` accumulated by `sync_variables_from_database`. -/
def skippedCountOf (db : List VariableRecord) (index : List VariablePayload) : Nat :=
  (db.filter (fun v => codeIndexed index v)).length

/-- The result dictionary of `sync_variables_from_database`. -/
structure SyncResult where
  success : Bool
  synced_count : Nat
  skipped_count : Nat
  total_db_variables : Nat
deriving DecidableEq

/-- `QdrantService.sync_variables_from_database`, as a function of the
relational table contents `db` and the current index contents `index`.
Returns the result counts and the index after the call. -/
def sync_variables_from_database (enabled upsertOk : Bool)
    (db : List VariableRecord) (index : List VariablePayload) :
    SyncResult × List VariablePayload :=
  if enabled = false then (⟨false, 0, 0, 0⟩, index)
  else if db.isEmpty then (⟨true, 0, 0, 0⟩, index)
  else
    let variables_to_sync := toSyncList db index
    let skipped_count := skippedCountOf db index
    if variables_to_sync.isEmpty then (⟨true, 0, skipped_count, db.length⟩, index)
    else
      let r := add_variables enabled upsertOk index variables_to_sync
      (⟨true, if r.2 then variables_to_sync.length else 0, skipped_count, db.length⟩,
        r.1)

/-! ### Search façade (`QdrantService.semantic_search`) -/

/-- The payload of a search hit as the façade inspects it: only the `type`
key is read (`result.payload.get("type")`); `none` models a missing key. -/
structure SearchPayload where
  type : Option String
deriving DecidableEq

/-- One hit returned by the backend `client.search` call.  The similarity
score is carried as an opaque value the modelled control flow never
inspects. -/
structure SearchResult where
  id : String
  score : Int
  payload : Option SearchPayload
deriving DecidableEq

/-- Outcome of one backend `client.search` RPC: a result list, or a raised
exception. -/
def BackendCall : Type := Except Unit (List SearchResult)

/-- The Python truthiness test
`result.payload and result.payload.get("type") == filter_type`. -/
def payloadTypeIs (ft : String) (r : SearchResult) : Bool :=
  match r.payload with
  | some p => p.type == some ft
  | none => false

/-- `QdrantService.semantic_search`.  `enabled` models the client/model
availability check; `filteredCall` is the outcome of the index-filtered
search RPC (issued only when a `filter_type` is given) and
`unfilteredCall` the outcome of the unfiltered search RPC. -/
def semantic_search (enabled : Bool) (filter_type : Option String)
    (filteredCall unfilteredCall : BackendCall) : List SearchResult :=
  if enabled = false then []
  else
    let search_results : List SearchResult :=
      match filter_type with
      | some _ =>
        match filteredCall with
        | .ok rs => rs
        | .error _ => []
      | none => []
    if search_results.isEmpty then
      match unfilteredCall with
      | .error _ => []
      | .ok rs =>
        match filter_type with
        | some ft => rs.filter (payloadTypeIs ft)
        | none => rs
    else search_results

/-! ### Rule extraction engine (`rule_generator.py`) -/

/-- A single-quote character, used inside the fallback `rule_logic`
templates. -/
def sq : String := ⟨[Char.ofNat 39]⟩

/-- One business rule as a parsed JSON object: every key may be absent.
The same shape is used for the rules of the final document, whose
normalisation guarantees `rule_id`, `rule_name`, `category` and
`variables_used` are present. -/
structure RawRule where
  rule_id : Option String
  rule_name : Option String
  rule_logic : Option String
  category : Option String
  variables_used : Option (List String)
  description : Option String
deriving DecidableEq

/-- One entry of the `variables` array of a rule document. -/
structure RuleVariable where
  variable_name : String
  data_type : String
  description : String
  possible_values : List String
deriving DecidableEq

/-- One entry of the `constants` array of a rule document. -/
structure RuleConstant where
  constant_name : String
  value : String
  description : String
deriving DecidableEq

/-- A successfully JSON-decoded model response: each of the three expected
top-level keys may be absent. -/
structure ParsedDoc where
  business_rules : Option (List RawRule)
  variables_list : Option (List RuleVariable)
  constants : Option (List RuleConstant)
deriving DecidableEq

/-- The rule document returned by every extraction path.  `error` records
whether the `"error"` diagnostic key was set (parse-failure path). -/
structure RuleDocument where
  business_rules : List RawRule
  variables_list : List RuleVariable
  constants : List RuleConstant
  provider : String
  extraction_method : String
  rule_format : String
  raw_response : Option String := none
  error : Bool := false
deriving DecidableEq

/-- Left brace character. -/
def lbrace : Char := Char.ofNat 123

/-- Right brace character. -/
def rbrace : Char := Char.ofNat 125

/-- Python `s.find(c)`: index of the first occurrence, if any. -/
def pyFind (cs : List Char) (c : Char) : Option Nat :=
  cs.findIdx? (fun x => x == c)

/-- Python `s.rfind(c)`: index of the last occurrence, if any. -/
def pyRFind (cs : List Char) (c : Char) : Option Nat :=
  match pyFind cs.reverse c with
  | none => none
  | some i => some (cs.length - 1 - i)

/-- The brace-bracketed slice `content[start_idx:end_idx]` that
`_parse_ai_response` feeds to `json.loads`; `none` when either brace is
missing (the `ValueError` path). -/
def extractJsonStr (content : String) : Option String :=
  match pyFind content.data lbrace, pyRFind content.data rbrace with
  | some s, some e => some ⟨(content.data.drop s).take (e + 1 - s)⟩
  | _, _ => none

/-- The document `_parse_ai_response` returns when JSON extraction fails:
empty arrays, the raw response truncated to 1000 characters, and an error
diagnostic. -/
def parseFailureDoc (content provider : String) : RuleDocument :=
  { business_rules := []
    variables_list := []
    constants := []
    provider := provider
    extraction_method := "ai_generated"
    rule_format := "structured_conditional"
    raw_response := some (pyTake content 1000)
    error := true }

/-- The per-rule key back-fill of `_parse_ai_response`: `n` is
`len(parsed_rules['business_rules'])`, which is constant during the loop. -/
def fillRule (n : Nat) (r : RawRule) : RawRule :=
  { r with
    rule_id := some (r.rule_id.getD ("RULE_" ++ toString n))
    rule_name := some (r.rule_name.getD "Generated Rule")
    category := some (r.category.getD "general")
    variables_used := some (r.variables_used.getD []) }

/-- `RuleGenerator._parse_ai_response`.  `jsonParse` models `json.loads`
(returning `none` on any decode error, including non-object values). -/
def parse_ai_response (jsonParse : String → Option ParsedDoc)
    (content provider : String) : RuleDocument :=
  match extractJsonStr content with
  | none => parseFailureDoc content provider
  | some js =>
    match jsonParse js with
    | none => parseFailureDoc content provider
    | some pd =>
      let brs := pd.business_rules.getD []
      { business_rules := brs.map (fillRule brs.length)
        variables_list := pd.variables_list.getD []
        constants := pd.constants.getD []
        provider := provider
        extraction_method := "ai_generated"
        rule_format := "structured_conditional" }

/-! #### Fallback pattern-matching extraction -/

/-- Keyword set for obligations. -/
def obligation_patterns : List String :=
  ["shall", "must", "required to", "agrees to", "undertakes to"]

/-- Keyword set for restrictions. -/
def restriction_patterns : List String :=
  ["shall not", "may not", "prohibited", "forbidden", "cannot"]

/-- Keyword set for conditions. -/
def condition_patterns : List String :=
  ["if", "when", "unless", "provided that", "in the event"]

/-- Keyword set for deadlines (defined in `_generate_rules_fallback` but
never consulted by its sentence loop). -/
def deadline_patterns : List String :=
  ["within", "by", "no later than", "before", "after"]

/-- Keyword set for financial terms. -/
def financial_patterns : List String :=
  ["pay", "payment", "fee", "cost", "price", "$", "dollar", "vnd", "đồng"]

/-- Keyword set for termination terms (defined in `_generate_rules_fallback`
but never consulted by its sentence loop). -/
def termination_patterns : List String :=
  ["terminate", "termination", "end", "expire", "cancel"]

/-- `any(pattern in sentence_lower for pattern in patterns)`. -/
def matchesAny (patterns : List String) (sentence_lower : String) : Bool :=
  patterns.any (fun p => strContains sentence_lower p)

/-- The obligation rule emitted for a (stripped) sentence. -/
def obligationRule (counter : Nat) (sentence : String) : RawRule :=
  { rule_id := some ("RULE_" ++ pad3 counter)
    rule_name := some ("Obligation Rule " ++ toString counter)
    rule_logic := some ("<if> PARTY_TYPE = " ++ sq ++ "OBLIGATED" ++ sq ++
      "\n    <thn> ACTION_REQUIRED = " ++ sq ++ sentence ++ sq)
    category := some "obligation"
    variables_used := some ["PARTY_TYPE", "ACTION_REQUIRED"]
    description := some ("Obligation requirement: " ++ pyTake sentence 100 ++ "...") }

/-- The restriction rule emitted for a (stripped) sentence. -/
def restrictionRule (counter : Nat) (sentence : String) : RawRule :=
  { rule_id := some ("RULE_" ++ pad3 counter)
    rule_name := some ("Restriction Rule " ++ toString counter)
    rule_logic := some ("<if> PARTY_TYPE = " ++ sq ++ "RESTRICTED" ++ sq ++
      "\n    <thn> ACTION_FORBIDDEN = " ++ sq ++ sentence ++ sq)
    category := some "restriction"
    variables_used := some ["PARTY_TYPE", "ACTION_FORBIDDEN"]
    description := some ("Restriction requirement: " ++ pyTake sentence 100 ++ "...") }

/-- The condition rule emitted for a (stripped) sentence. -/
def conditionRule (counter : Nat) (sentence : String) : RawRule :=
  { rule_id := some ("RULE_" ++ pad3 counter)
    rule_name := some ("Conditional Rule " ++ toString counter)
    rule_logic := some ("<if> CONDITION_MET = True\n    <thn> CONSEQUENCE = " ++
      sq ++ sentence ++ sq)
    category := some "condition"
    variables_used := some ["CONDITION_MET", "CONSEQUENCE"]
    description := some ("Conditional requirement: " ++ pyTake sentence 100 ++ "...") }

/-- The financial rule emitted for a (stripped) sentence. -/
def financialRule (counter : Nat) (sentence : String) : RawRule :=
  { rule_id := some ("RULE_" ++ pad3 counter)
    rule_name := some ("Financial Rule " ++ toString counter)
    rule_logic := some ("<if> PAYMENT_DUE = True\n    <thn> AMOUNT_CALCULATION = " ++
      sq ++ sentence ++ sq)
    category := some "payment"
    variables_used := some ["PAYMENT_DUE", "AMOUNT_CALCULATION"]
    description := some ("Financial requirement: " ++ pyTake sentence 100 ++ "...") }

/-- One iteration of the fallback sentence loop: strip the sentence, skip it
when shorter than 20 characters, otherwise test the four keyword sets that
the loop actually consults (obligation, restriction, condition, financial),
emitting one rule per match and threading `rule_counter`. -/
def sentenceStep (counter : Nat) (sentence : String) : List RawRule × Nat :=
  let s := pyStrip sentence
  if s.length < 20 then ([], counter)
  else
    let sentence_lower := pyLower s
    let ob := if matchesAny obligation_patterns sentence_lower
      then [obligationRule counter s] else []
    let c1 := counter + ob.length
    let re := if matchesAny restriction_patterns sentence_lower
      then [restrictionRule c1 s] else []
    let c2 := c1 + re.length
    let co := if matchesAny condition_patterns sentence_lower
      then [conditionRule c2 s] else []
    let c3 := c2 + co.length
    let fi := if matchesAny financial_patterns sentence_lower
      then [financialRule c3 s] else []
    (ob ++ re ++ co ++ fi, c3 + fi.length)

/-- The fallback sentence loop over `text.split('.')`. -/
def fallbackLoop : List String → Nat → List RawRule → List RawRule
  | [], _, acc => acc
  | s :: rest, c, acc =>
    let step := sentenceStep c s
    fallbackLoop rest step.2 (acc ++ step.1)

/-- The `business_rules` accumulated by `_generate_rules_fallback` before
the final cap. -/
def fallbackRules (text : String) : List RawRule :=
  fallbackLoop (pySplitDot text) 1 []

/-- The fixed `variables` array of the fallback document. -/
def fallbackVariables : List RuleVariable :=
  [{ variable_name := "PARTY_TYPE"
     data_type := "string"
     description := "Type of party in the contract"
     possible_values := ["BUYER", "SELLER", "OBLIGATED", "RESTRICTED"] },
   { variable_name := "CONDITION_MET"
     data_type := "boolean"
     description := "Whether a specific condition is satisfied"
     possible_values := ["True", "False"] },
   { variable_name := "PAYMENT_DUE"
     data_type := "boolean"
     description := "Whether payment is required"
     possible_values := ["True", "False"] }]

/-- `RuleGenerator._generate_rules_fallback` (the `document_type` argument
is never read by the Python body). -/
def generate_rules_fallback (text document_type : String) : RuleDocument :=
  let brs := fallbackRules text
  { business_rules := if brs.length > 10 then brs.take 10 else brs
    variables_list := fallbackVariables
    constants := []
    provider := "pattern_matching"
    extraction_method := "fallback"
    rule_format := "structured_conditional" }

/-! #### Top-level generation -/

/-- Outcome of the Groq chat-completion RPC in `_generate_rules_groq`:
an exception, a response without usable choices, an empty content string,
or a content string. -/
inductive GroqOutcome where
  | raises
  | noChoices
  | emptyContent
  | content (s : String)
deriving DecidableEq

/-- `RuleGenerator._generate_rules_groq`: every abnormal outcome of the
model call degrades to the fallback; non-empty content is stripped and
parsed. -/
def generate_rules_groq (jsonParse : String → Option ParsedDoc)
    (outcome : GroqOutcome) (text document_type : String) : RuleDocument :=
  match outcome with
  | .content s =>
    if s.data.isEmpty then generate_rules_fallback text document_type
    else parse_ai_response jsonParse (pyStrip s) "groq"
  | _ => generate_rules_fallback text document_type

/-- `RuleGenerator.generate_rules`: with a client, delegate to the Groq
path; without one, use the fallback.  (The Groq path already degrades to
the fallback on its own exceptions, so the outer `except` is modelled by
the same total function.) -/
def generate_rules (client : Option Unit) (jsonParse : String → Option ParsedDoc)
    (outcome : GroqOutcome) (text document_type : String) : RuleDocument :=
  match client with
  | some _ => generate_rules_groq jsonParse outcome text document_type
  | none => generate_rules_fallback text document_type

/-- `RuleGenerator._initialize_client`, as an `Except`: with a falsy
(empty) `groq_api_key` setting it raises
`"Groq API key not configured..."`, and `__init__` propagates that
exception to whoever constructs the `RuleGenerator`. -/
def init_client (groq_api_key : String) : Except String Unit :=
  if groq_api_key.isEmpty then
    Except.error
      "Groq API key not configured. Please set GROQ_API_KEY in your .env file"
  else Except.ok ()

/-- The Vietnamese indicator word list of `_detect_language_instruction`
(verbatim, including the duplicated entry `"trong"`). -/
def vietnamese_indicators : List String :=
  ["và", "của", "là", "có", "được", "cho", "từ", "trong", "với", "các",
   "này", "đó", "để", "những", "một", "về", "theo", "như", "đã", "sẽ",
   "tại", "do", "khi", "mà", "nếu", "hoặc", "nhưng", "vì", "bởi", "thì",
   "ở", "trên", "dưới", "giữa", "sau", "trước", "ngoài", "trong"]

/-- The Vietnamese diacritic character list of
`_detect_language_instruction` (verbatim). -/
def vietnamese_chars : List Char :=
  ['ă', 'â', 'đ', 'ê', 'ô', 'ơ', 'ư', 'á', 'à', 'ả', 'ã', 'ạ', 'é', 'è',
   'ẻ', 'ẽ', 'ẹ', 'í', 'ì', 'ỉ', 'ĩ', 'ị', 'ó', 'ò', 'ỏ', 'õ', 'ọ', 'ú',
   'ù', 'ủ', 'ũ', 'ụ', 'ý', 'ỳ', 'ỷ', 'ỹ', 'ỵ']

/-- The per-word test of `_detect_language_instruction`:
`f' {word} ' in text_lower or text_lower.startswith(f'{word} ') or
text_lower.endswith(f' {word}')`. -/
def matchWord (text_lower word : String) : Bool :=
  strContains text_lower (" " ++ word ++ " ") ||
    startsWithW text_lower (word ++ " ") ||
    endsWithW text_lower (" " ++ word)

/-- The instruction returned for Vietnamese input. -/
def vietnameseInstruction : String :=
  "IMPORTANT: Please respond in Vietnamese language (tiếng Việt). The document is in Vietnamese, so all rules and explanations must be in Vietnamese."

/-- The instruction returned for English input. -/
def englishInstruction : String := "Please respond in English."

/-- `RuleGenerator._detect_language_instruction`. -/
def detect_language_instruction (text : String) : String :=
  let text_lower := pyLower text
  let vietnamese_count :=
    vietnamese_indicators.countP (fun word => matchWord text_lower word)
  let has_vietnamese_chars :=
    vietnamese_chars.any (fun c => text_lower.data.contains c)
  if vietnamese_count > 3 || has_vietnamese_chars then vietnameseInstruction
  else englishInstruction

/-- Follows the claim's words, for comparison with the source: the number
of distinct Vietnamese indicator words matched in the lowercased text. -/
def spec_matched_word_count (text : String) : Nat :=
  (vietnamese_indicators.dedup).countP (fun word => matchWord (pyLower text) word)

/-- Decimal accumulator over digit characters (reads a digit string back
into the number it denotes). -/
def digitsVal (a : Nat) (cs : List Char) : Nat :=
  cs.foldl (fun acc c => acc * 10 + (c.toNat - 48)) a

/-- The rule identifier emitted by the fallback loop for counter `k`. -/
def ruleIdStr (k : Nat) : String := "RULE_" ++ pad3 k

/-- The `rule_id` column of a rule list. -/
def ruleIds (rs : List RawRule) : List (Option String) :=
  rs.map (fun r => r.rule_id)

/-! ### Claim C3: degradation of rule generation to the fallback -/

/-- C3 (amended): when the Groq model call raises, or the generator instance
carries no client, `generate_rules` does not raise and returns exactly the
pattern-matching fallback document, with `extraction_method = "fallback"` and
`provider = "pattern_matching"`. -/
theorem generate_rules_degrades_to_fallback (client : Option Unit)
    (jsonParse : String → Option ParsedDoc) (outcome : GroqOutcome)
    (text document_type : String)
    (h : client = none ∨ outcome = GroqOutcome.raises) :
    generate_rules client jsonParse outcome text document_type =
      generate_rules_fallback text document_type ∧
    (generate_rules client jsonParse outcome text document_type).extraction_method =
      "fallback" ∧
    (generate_rules client jsonParse outcome text document_type).provider =
      "pattern_matching" := by
  have hfb : generate_rules client jsonParse outcome text document_type =
      generate_rules_fallback text document_type := by
    rcases h with h | h
    · rw [h]; rfl
    · rw [h]; cases client <;> rfl
  refine ⟨hfb, ?_, ?_⟩ <;> rw [hfb] <;> rfl

/-- C3 (counterexample to the claim as stated): with an unconfigured API key
the client constructor itself raises, so a caller constructing the generator
sees an exception rather than a fallback document. -/
theorem init_client_raises_without_key :
    init_client "" = Except.error
      "Groq API key not configured. Please set GROQ_API_KEY in your .env file" := rfl

/-- C3 witness: the amended theorem applied to a raising model call. -/
theorem generate_rules_degrades_to_fallback_witness :
    generate_rules (some ()) (fun _ => none) GroqOutcome.raises "x" "contract" =
      generate_rules_fallback "x" "contract" :=
  (generate_rules_degrades_to_fallback (some ()) (fun _ => none) GroqOutcome.raises
    "x" "contract" (Or.inr rfl)).1

/-! ### Claim C6: shape of the document on every parse outcome -/

/-- C6: on parse failure (missing braces or undecodable JSON)
`_parse_ai_response` returns the document with all three arrays empty,
`extraction_method = "ai_generated"` and the raw text truncated to 1000
characters; on parse success the three arrays are the decoded ones, with a
missing key back-filled by an empty array, so every extraction path yields
all three top-level lists. -/
theorem parse_ai_response_shape :
    (∀ (jsonParse : String → Option ParsedDoc) (content provider : String),
      (∀ js, extractJsonStr content = some js → jsonParse js = none) →
      parse_ai_response jsonParse content provider =
        { business_rules := [], variables_list := [], constants := [],
          provider := provider, extraction_method := "ai_generated",
          rule_format := "structured_conditional",
          raw_response := some (pyTake content 1000), error := true }) ∧
    (∀ (jsonParse : String → Option ParsedDoc) (content provider js : String)
      (pd : ParsedDoc), extractJsonStr content = some js → jsonParse js = some pd →
      (parse_ai_response jsonParse content provider).business_rules.length =
        (pd.business_rules.getD []).length ∧
      (parse_ai_response jsonParse content provider).variables_list =
        pd.variables_list.getD [] ∧
      (parse_ai_response jsonParse content provider).constants =
        pd.constants.getD [] ∧
      (parse_ai_response jsonParse content provider).extraction_method =
        "ai_generated") := by
  constructor
  · intro jsonParse content provider h
    cases hjs : extractJsonStr content with
    | none => simp only [parse_ai_response, hjs, parseFailureDoc]
    | some js => simp only [parse_ai_response, hjs, h js hjs, parseFailureDoc]
  · intro jsonParse content provider js pd hjs hpd
    simp [parse_ai_response, hjs, hpd]

/-- C6 witness: the parse-failure branch of the theorem at a concrete
response without JSON braces. -/
theorem parse_ai_response_shape_witness :
    parse_ai_response (fun _ => none) "no json here" "groq" =
      { business_rules := [], variables_list := [], constants := [],
        provider := "groq", extraction_method := "ai_generated",
        rule_format := "structured_conditional",
        raw_response := some (pyTake "no json here" 1000), error := true } :=
  parse_ai_response_shape.1 (fun _ => none) "no json here" "groq" (fun _ _ => rfl)

/-! ### Claim C7: client-side filtering on index-filter failure -/

/-- C7: when a `filter_type` is requested and the index-filtered search
raises or returns no results, `semantic_search` falls back to the
unfiltered search and filters its payloads client-side, so every returned
hit has `payload.type` equal to the requested type; no branch raises. -/
theorem semantic_search_fallback_filters (ft : String)
    (filteredCall unfilteredCall : BackendCall)
    (hfail : filteredCall = Except.error () ∨ filteredCall = Except.ok []) :
    (∀ rs, unfilteredCall = Except.ok rs →
      semantic_search true (some ft) filteredCall unfilteredCall =
        rs.filter (payloadTypeIs ft)) ∧
    (∀ r ∈ semantic_search true (some ft) filteredCall unfilteredCall,
      ∃ p, r.payload = some p ∧ p.type = some ft) := by
  have hres : semantic_search true (some ft) filteredCall unfilteredCall =
      match unfilteredCall with
      | .error _ => []
      | .ok rs => rs.filter (payloadTypeIs ft) := by
    rcases hfail with h | h <;> rw [h] <;> rfl
  constructor
  · intro rs hrs
    rw [hres, hrs]
  · intro r hr
    rw [hres] at hr
    cases unfilteredCall with
    | error e => simp at hr
    | ok rs =>
      have hp : payloadTypeIs ft r = true := (List.mem_filter.mp hr).2
      unfold payloadTypeIs at hp
      cases hpl : r.payload with
      | none => rw [hpl] at hp; cases hp
      | some p =>
        rw [hpl] at hp
        exact ⟨p, rfl, by simpa using hp⟩

/-- C7 witness: the theorem applied to a raising filtered call and an
unfiltered call returning one variable-type and one document-type hit. -/
theorem semantic_search_fallback_filters_witness :
    semantic_search true (some "variable") (Except.error ())
      (Except.ok [⟨"a", 0, some ⟨some "variable"⟩⟩, ⟨"b", 0, some ⟨some "document"⟩⟩]) =
      [⟨"a", 0, some ⟨some "variable"⟩⟩] :=
  (semantic_search_fallback_filters "variable" (Except.error ())
    (Except.ok [⟨"a", 0, some ⟨some "variable"⟩⟩, ⟨"b", 0, some ⟨some "document"⟩⟩])
    (Or.inl rfl)).1 _ rfl

/-! ### Claim C8: determinism and the cap of the fallback extractor -/

/-- C8: fallback extraction is a pure function of the input text (two runs
on the same text yield identical `business_rules`, whatever the
`document_type` arguments), and the emitted `business_rules` list never
exceeds 10 entries. -/
theorem fallback_deterministic_and_capped
    (text1 text2 document_type1 document_type2 : String) (ht : text1 = text2) :
    (generate_rules_fallback text1 document_type1).business_rules =
      (generate_rules_fallback text2 document_type2).business_rules ∧
    (generate_rules_fallback text1 document_type1).business_rules.length ≤ 10 := by
  subst ht
  refine ⟨rfl, ?_⟩
  unfold generate_rules_fallback
  dsimp only
  split
  · rw [List.length_take]
    exact Nat.min_le_left 10 _
  · next h => omega

/-- C8 witness: the theorem applied to one concrete text given twice. -/
theorem fallback_deterministic_and_capped_witness :
    (generate_rules_fallback "The party shall deliver goods on time" "a").business_rules =
      (generate_rules_fallback "The party shall deliver goods on time" "b").business_rules :=
  (fallback_deterministic_and_capped "The party shall deliver goods on time"
    "The party shall deliver goods on time" "a" "b" rfl).1

/-! ### Claim C9: the language-detection predicate -/

/-- C9 (amended): the detector instructs the model to respond in Vietnamese
exactly when the count over the 38-entry indicator list (which contains
`"trong"` twice, so that word contributes two) exceeds 3, or some
Vietnamese diacritic character occurs in the lowercased text. -/
theorem detect_language_iff (text : String) :
    detect_language_instruction text = vietnameseInstruction ↔
      (3 < vietnamese_indicators.countP (fun w => matchWord (pyLower text) w) ∨
        vietnamese_chars.any (fun c => (pyLower text).data.contains c) = true) := by
  simp only [detect_language_instruction]
  by_cases hc : (3 < vietnamese_indicators.countP (fun w => matchWord (pyLower text) w) ∨
      vietnamese_chars.any (fun c => (pyLower text).data.contains c) = true)
  · have hb : (decide (3 < vietnamese_indicators.countP
        (fun w => matchWord (pyLower text) w)) ||
        vietnamese_chars.any (fun c => (pyLower text).data.contains c)) = true := by
      rcases hc with h | h
      · rw [decide_eq_true h, Bool.true_or]
      · rw [h, Bool.or_true]
    rw [if_pos hb]
    exact iff_of_true rfl hc
  · have h1 : ¬ 3 < vietnamese_indicators.countP (fun w => matchWord (pyLower text) w) :=
      fun h => hc (Or.inl h)
    have h2 : vietnamese_chars.any (fun c => (pyLower text).data.contains c) = false := by
      cases hany : vietnamese_chars.any (fun c => (pyLower text).data.contains c) with
      | false => rfl
      | true => exact absurd (Or.inr hany) hc
    rw [if_neg (by rw [decide_eq_false h1, h2]; simp)]
    exact iff_of_false (fun h => absurd h (by decide)) hc

/-- C9 (counterexample to the claim as stated): the text
`" cho trong theo "` matches exactly three distinct indicator words and has
no Vietnamese diacritic, yet the detector instructs Vietnamese, because the
duplicated list entry `"trong"` makes the source count 4. -/
theorem detect_language_counterexample :
    detect_language_instruction " cho trong theo " = vietnameseInstruction ∧
    spec_matched_word_count " cho trong theo " = 3 ∧
    vietnamese_indicators.countP
      (fun w => matchWord (pyLower " cho trong theo ") w) = 4 ∧
    vietnamese_chars.any (fun c => (pyLower " cho trong theo ").data.contains c) = false := by
  decide

/-! ### Claim C10: all-blank batches are indistinguishable from failures -/

/-- C10: `add_variables` on an enabled client with a non-empty batch whose
records all have blank searchable text upserts nothing and returns `False`,
the same value it returns for a disabled client or a failed upsert call. -/
theorem add_variables_all_blank_returns_false (upsertOk : Bool)
    (index : List VariablePayload) (vars : List VariableRecord)
    (_hne : vars ≠ [])
    (hblank : ∀ v ∈ vars, isBlankText (searchable_text_of v) = true) :
    (add_variables true upsertOk index vars).2 = false ∧
    (add_variables true upsertOk index vars).1 = index ∧
    (add_variables false upsertOk index vars).2 = false ∧
    (∀ (index2 : List VariablePayload) (vars2 : List VariableRecord),
      (add_variables true false index2 vars2).2 = false) := by
  have hpts : (vars.filter (fun v => !(isBlankText (searchable_text_of v)))) = [] :=
    List.filter_eq_nil_iff.mpr (fun v hv => by simp [hblank v hv])
  refine ⟨?_, ?_, rfl, ?_⟩
  · unfold add_variables
    simp [hpts]
  · unfold add_variables
    simp [hpts]
  · intro index2 vars2
    unfold add_variables
    by_cases h : ((vars2.filter
        (fun v => !(isBlankText (searchable_text_of v)))).map payload_of).isEmpty <;>
      simp [h]

/-- C10 witness: the theorem applied to a batch of one all-blank record. -/
theorem add_variables_all_blank_returns_false_witness :
    (add_variables true true [] [⟨"V1", "", "", "", "", "", "", "", "", ""⟩]).2 = false :=
  (add_variables_all_blank_returns_false true []
    [⟨"V1", "", "", "", "", "", "", "", "", ""⟩] (by decide)
    (by decide)).1

/-! ### Helper lemmas for the sync engine -/

/-- Unfolding of `sync_variables_from_database` on an enabled client and a
non-empty table. -/
theorem sync_enabled_eq (up : Bool) (db : List VariableRecord)
    (index : List VariablePayload) (hdb : db ≠ []) :
    sync_variables_from_database true up db index =
      (if (toSyncList db index).isEmpty
        then (⟨true, 0, skippedCountOf db index, db.length⟩, index)
        else
          (⟨true,
            if (add_variables true up index (toSyncList db index)).2
              then (toSyncList db index).length else 0,
            skippedCountOf db index, db.length⟩,
            (add_variables true up index (toSyncList db index)).1)) := by
  unfold sync_variables_from_database
  rw [if_neg (by simp), if_neg (by simp [hdb])]

/-- The index after an enabled `add_variables` call is either unchanged or
extended by the payloads of the non-blank records. -/
theorem add_variables_index_cases (up : Bool) (index : List VariablePayload)
    (vars : List VariableRecord) :
    (add_variables true up index vars).1 = index ∨
    (add_variables true up index vars).1 =
      index ++ (vars.filter
        (fun v => !(isBlankText (searchable_text_of v)))).map payload_of := by
  unfold add_variables
  rw [if_neg (by simp)]
  by_cases h : ((vars.filter
      (fun v => !(isBlankText (searchable_text_of v)))).map payload_of).isEmpty
  · rw [if_pos h]; exact Or.inl rfl
  · rw [if_neg h]
    cases up
    · rw [if_neg (by simp)]; exact Or.inl rfl
    · rw [if_pos rfl]; exact Or.inr rfl

/-- A payload of the index whose code equals the record's code makes
`codeIndexed` true, provided the index fits in one scroll page. -/
theorem codeIndexed_of_mem_codes {index : List VariablePayload}
    {v : VariableRecord} (htake : index.take scroll_limit = index)
    (p : VariablePayload) (hp : p ∈ index)
    (hc : p.variable_code = v.variable_code) :
    codeIndexed index v = true := by
  unfold codeIndexed get_existing_variable_codes
  rw [htake, List.any_eq_true]
  exact ⟨p.variable_code, List.mem_map_of_mem _ hp, by simp [hc]⟩

/-- A true `codeIndexed` test exhibits a payload with the record's code. -/
theorem exists_code_of_codeIndexed {index : List VariablePayload}
    {v : VariableRecord} (h : codeIndexed index v = true) :
    ∃ p ∈ index, p.variable_code = v.variable_code := by
  unfold codeIndexed get_existing_variable_codes at h
  rw [List.any_eq_true] at h
  obtain ⟨c, hc, heq⟩ := h
  obtain ⟨p, hp, rfl⟩ := List.mem_map.mp hc
  exact ⟨p, List.take_subset _ _ hp, by simpa using heq⟩

/-! ### Claim C1: idempotence of the sync -/

/-- C1 (amended): when every table record has non-blank searchable text and
the table plus index fit in one scroll page, a second sync run with an
unchanged table skips every record: `synced_count = 0` and
`skipped_count = total_db_variables`.  (Blank-text records are never
indexed, so without the first hypothesis they are re-attempted, not
skipped, on every run.) -/
theorem sync_idempotent_amended (db : List VariableRecord)
    (index : List VariablePayload)
    (hblank : ∀ v ∈ db, isBlankText (searchable_text_of v) = false)
    (hcap : index.length + db.length ≤ scroll_limit) :
    ((sync_variables_from_database true true db
        (sync_variables_from_database true true db index).2).1.synced_count = 0) ∧
    ((sync_variables_from_database true true db
        (sync_variables_from_database true true db index).2).1.skipped_count =
      (sync_variables_from_database true true db
        (sync_variables_from_database true true db index).2).1.total_db_variables) := by
  by_cases hdb : db = []
  · subst hdb
    simp [sync_variables_from_database]
  · set index1 := (sync_variables_from_database true true db index).2 with hindex1
    have hall : ∀ v ∈ db, codeIndexed index1 v = true := by
      by_cases hts1 : toSyncList db index = []
      · have hidx1 : index1 = index := by
          rw [hindex1, sync_enabled_eq true db index hdb,
            if_pos (by simp [hts1])]
        intro v hv
        have hnp := List.filter_eq_nil_iff.mp hts1 v hv
        have hci : codeIndexed index v = true := by
          cases h : codeIndexed index v
          · exact absurd (by simp [h]) hnp
          · rfl
        rw [hidx1]; exact hci
      · have hfeq : (toSyncList db index).filter
            (fun u => !(isBlankText (searchable_text_of u))) = toSyncList db index :=
          List.filter_eq_self.mpr (fun u hu => by
            rw [hblank u (List.mem_of_mem_filter hu)]; rfl)
        have hadd1 : add_variables true true index (toSyncList db index) =
            (index ++ (toSyncList db index).map payload_of, true) := by
          unfold add_variables
          rw [if_neg (by simp), hfeq,
            if_neg (by simp only [List.isEmpty_eq_true, List.map_eq_nil_iff]; exact hts1),
            if_pos rfl]
        have hidx1 : index1 = index ++ (toSyncList db index).map payload_of := by
          rw [hindex1, sync_enabled_eq true db index hdb,
            if_neg (by simpa using hts1)]
          dsimp only
          rw [hadd1]
        have hlen_ts : (toSyncList db index).length ≤ db.length :=
          List.length_filter_le _ _
        have hlen1 : index1.length ≤ scroll_limit := by
          rw [hidx1, List.length_append, List.length_map]
          omega
        have htake1 : index1.take scroll_limit = index1 :=
          List.take_of_length_le hlen1
        intro v hv
        by_cases hvi : codeIndexed index v = true
        · obtain ⟨p, hp, hpc⟩ := exists_code_of_codeIndexed hvi
          exact codeIndexed_of_mem_codes htake1 p
            (by rw [hidx1]; exact List.mem_append_left _ hp) hpc
        · have hvf : codeIndexed index v = false := by
            cases h : codeIndexed index v
            · rfl
            · exact absurd h hvi
          have hvts : v ∈ toSyncList db index :=
            List.mem_filter.mpr ⟨hv, by simp [hvf]⟩
          exact codeIndexed_of_mem_codes htake1 (payload_of v)
            (by rw [hidx1]
                exact List.mem_append_right _ (List.mem_map_of_mem _ hvts)) rfl
    have hts2 : toSyncList db index1 = [] :=
      List.filter_eq_nil_iff.mpr (fun v hv => by simp [hall v hv])
    have hsk2 : skippedCountOf db index1 = db.length := by
      unfold skippedCountOf
      rw [List.filter_eq_self.mpr (fun v hv => hall v hv)]
    rw [sync_enabled_eq true db index1 hdb, if_pos (by simp [hts2])]
    exact ⟨rfl, hsk2⟩

/-- C1 (counterexample to the claim as stated): a single record with blank
searchable text is never indexed by the first run, so the second run
reports `skipped_count = 0` while `total_db_variables = 1`. -/
theorem sync_idempotent_counterexample :
    (sync_variables_from_database true true
      [⟨"V1", "", "", "", "", "", "", "", "", ""⟩]
      (sync_variables_from_database true true
        [⟨"V1", "", "", "", "", "", "", "", "", ""⟩] []).2).1.skipped_count = 0 ∧
    (sync_variables_from_database true true
      [⟨"V1", "", "", "", "", "", "", "", "", ""⟩]
      (sync_variables_from_database true true
        [⟨"V1", "", "", "", "", "", "", "", "", ""⟩] []).2).1.total_db_variables = 1 ∧
    (sync_variables_from_database true true
      [⟨"V1", "", "", "", "", "", "", "", "", ""⟩]
      (sync_variables_from_database true true
        [⟨"V1", "", "", "", "", "", "", "", "", ""⟩] []).2).1.synced_count = 0 := by
  decide

/-- C1 witness: the amended theorem applied to a one-record table with
non-blank text. -/
theorem sync_idempotent_amended_witness :
    (sync_variables_from_database true true
      [⟨"VC", "name", "desc", "eng", "", "", "", "", "", ""⟩]
      (sync_variables_from_database true true
        [⟨"VC", "name", "desc", "eng", "", "", "", "", "", ""⟩] []).2).1.synced_count = 0 :=
  (sync_idempotent_amended [⟨"VC", "name", "desc", "eng", "", "", "", "", "", ""⟩] []
    (by decide) (by decide)).1

/-! ### Claim C2: fate of a blank-text, unindexed record -/

/-- C2 (amended): a record with blank searchable text whose code is not yet
indexed produces no point (every point added by the run comes from a
non-blank record), is not reflected in `skipped_count` (which stays below
the table size), and is placed on the to-sync list, so `synced_count`
counts it whenever the batch upsert reports success. -/
theorem blank_record_not_skipped (upsertOk : Bool) (db : List VariableRecord)
    (index : List VariablePayload) (v : VariableRecord)
    (hmem : v ∈ db) (hblank : isBlankText (searchable_text_of v) = true)
    (hnew : codeIndexed index v = false) :
    (∀ p ∈ (sync_variables_from_database true upsertOk db index).2,
      p ∈ index ∨ isBlankText p.searchable_text = false) ∧
    (sync_variables_from_database true upsertOk db index).1.skipped_count <
      db.length ∧
    v ∈ toSyncList db index ∧
    ((sync_variables_from_database true upsertOk db index).1.synced_count = 0 ∨
      (sync_variables_from_database true upsertOk db index).1.synced_count =
        (toSyncList db index).length) := by
  have hdb : db ≠ [] := List.ne_nil_of_mem hmem
  have hvts : v ∈ toSyncList db index :=
    List.mem_filter.mpr ⟨hmem, by simp [hnew]⟩
  have htsne : toSyncList db index ≠ [] := List.ne_nil_of_mem hvts
  rw [sync_enabled_eq upsertOk db index hdb, if_neg (by simpa using htsne)]
  refine ⟨?_, ?_, hvts, ?_⟩
  · intro p hp
    dsimp only at hp
    rcases add_variables_index_cases upsertOk index (toSyncList db index) with h | h
    · rw [h] at hp; exact Or.inl hp
    · rw [h] at hp
      rcases List.mem_append.mp hp with h' | h'
      · exact Or.inl h'
      · obtain ⟨u, hu, rfl⟩ := List.mem_map.mp h'
        exact Or.inr (by simpa [payload_of] using (List.mem_filter.mp hu).2)
  · dsimp only
    unfold skippedCountOf
    have hle := List.length_filter_le (fun u => codeIndexed index u) db
    have hne2 : (db.filter (fun u => codeIndexed index u)).length ≠ db.length := by
      intro heq
      rw [← List.countP_eq_length_filter] at heq
      have := List.countP_eq_length.mp heq v hmem
      simp [hnew] at this
    omega
  · dsimp only
    cases h : (add_variables true upsertOk index (toSyncList db index)).2
    · exact Or.inl (by simp)
    · exact Or.inr (by simp)

/-- C2 (counterexample to the claim as stated): with one blank and one
non-blank new record, the run reports `skipped_count = 0` (the blank record
did not increment it) and `synced_count = 2` (the blank record is counted
as synced even though no point was created for it). -/
theorem blank_record_not_skipped_counterexample :
    (sync_variables_from_database true true
      [⟨"VB", "", "", "", "", "", "", "", "", ""⟩,
       ⟨"VC", "name", "desc", "eng", "", "", "", "", "", ""⟩] []).1.skipped_count = 0 ∧
    (sync_variables_from_database true true
      [⟨"VB", "", "", "", "", "", "", "", "", ""⟩,
       ⟨"VC", "name", "desc", "eng", "", "", "", "", "", ""⟩] []).1.synced_count = 2 ∧
    (sync_variables_from_database true true
      [⟨"VB", "", "", "", "", "", "", "", "", ""⟩,
       ⟨"VC", "name", "desc", "eng", "", "", "", "", "", ""⟩] []).2 =
      [payload_of ⟨"VC", "name", "desc", "eng", "", "", "", "", "", ""⟩] := by
  decide

/-- C2 witness: the amended theorem applied to a blank plus a non-blank
record over an empty index. -/
theorem blank_record_not_skipped_witness :
    (sync_variables_from_database true true
      [⟨"VB", "", "", "", "", "", "", "", "", ""⟩,
       ⟨"VC", "name", "desc", "eng", "", "", "", "", "", ""⟩] []).1.skipped_count < 2 :=
  (blank_record_not_skipped true
    [⟨"VB", "", "", "", "", "", "", "", "", ""⟩,
     ⟨"VC", "name", "desc", "eng", "", "", "", "", "", ""⟩] []
    ⟨"VB", "", "", "", "", "", "", "", "", ""⟩
    (by decide) (by decide) (by decide)).2.1

/-! ### Decimal representation round trip (for rule-id distinctness) -/

/-- Reading digits distributes over list append. -/
theorem digitsVal_append (a : Nat) (xs ys : List Char) :
    digitsVal a (xs ++ ys) = digitsVal (digitsVal a xs) ys := by
  simp [digitsVal]

/-- The accumulator of `Nat.toDigitsCore` is only ever appended to. -/
theorem toDigitsCore_append (f : Nat) : ∀ (n : Nat) (acc : List Char),
    Nat.toDigitsCore 10 f n acc = Nat.toDigitsCore 10 f n [] ++ acc := by
  induction f with
  | zero => intro n acc; simp [Nat.toDigitsCore]
  | succ f ih =>
    intro n acc
    simp only [Nat.toDigitsCore]
    by_cases h : n / 10 = 0
    · simp [h]
    · simp only [h, if_false]
      rw [ih (n / 10) (Nat.digitChar (n % 10) :: acc),
        ih (n / 10) [Nat.digitChar (n % 10)]]
      simp

/-- Value of a digit character below 10. -/
theorem digitChar_sub (m : Nat) (h : m < 10) :
    (Nat.digitChar m).toNat - 48 = m := by
  interval_cases m <;> rfl

/-- Reading back the digits produced by `Nat.toDigitsCore` recovers the
number. -/
theorem digitsVal_toDigitsCore (f : Nat) : ∀ (n a : Nat), n < f →
    digitsVal a (Nat.toDigitsCore 10 f n []) =
      a * 10 ^ (Nat.toDigitsCore 10 f n []).length + n := by
  induction f with
  | zero => intro n a h; exact absurd h (Nat.not_lt_zero n)
  | succ f ih =>
    intro n a h
    simp only [Nat.toDigitsCore]
    by_cases h0 : n / 10 = 0
    · rw [if_pos h0]
      have hn : n < 10 := (Nat.div_eq_zero_iff (by decide)).mp h0
      have hm : n % 10 = n := Nat.mod_eq_of_lt hn
      simp only [digitsVal, List.foldl_cons, List.foldl_nil, List.length_cons,
        List.length_nil]
      rw [digitChar_sub (n % 10) (Nat.mod_lt n (by decide)), hm, pow_one]
    · rw [if_neg h0]
      rw [toDigitsCore_append f (n / 10) [Nat.digitChar (n % 10)]]
      have hpos : 0 < n := Nat.pos_of_ne_zero (fun hn => h0 (by simp [hn]))
      have hlt : n / 10 < f := by
        have := Nat.div_lt_self hpos (by decide : 1 < 10)
        omega
      rw [digitsVal_append, ih (n / 10) a hlt]
      simp only [digitsVal, List.foldl_cons, List.foldl_nil, List.length_append,
        List.length_cons, List.length_nil]
      rw [digitChar_sub (n % 10) (Nat.mod_lt n (by decide))]
      generalize (Nat.toDigitsCore 10 f (n / 10) []).length = L
      calc (a * 10 ^ L + n / 10) * 10 + n % 10
          = a * (10 ^ L * 10) + (10 * (n / 10) + n % 10) := by ring
        _ = a * 10 ^ (L + (0 + 1)) + n := by
              rw [Nat.div_add_mod]
              ring

/-- Reading back `Nat.repr` recovers the number. -/
theorem digitsVal_repr (n : Nat) : digitsVal 0 (Nat.repr n).data = n := by
  have h : (Nat.repr n).data = Nat.toDigitsCore 10 (n + 1) n [] := rfl
  rw [h, digitsVal_toDigitsCore (n + 1) n 0 (Nat.lt_succ_self n)]
  simp

/-- Leading zeros contribute nothing to the read-back value. -/
theorem digitsVal_replicate_zero (k : Nat) :
    digitsVal 0 (List.replicate k '0') = 0 := by
  induction k with
  | zero => rfl
  | succ k ih =>
    rw [List.replicate_succ]
    simpa [digitsVal] using ih

/-- Reading back the zero-padded representation recovers the number. -/
theorem pad3_val (n : Nat) : digitsVal 0 (pad3 n).data = n := by
  unfold pad3
  dsimp only
  split
  · show digitsVal 0 (List.replicate (3 - (toString n).length) '0' ++
      (toString n).data) = n
    rw [digitsVal_append, digitsVal_replicate_zero]
    exact digitsVal_repr n
  · exact digitsVal_repr n

/-- The zero-padded decimal format is injective. -/
theorem pad3_injective : Function.Injective pad3 := by
  intro a b h
  have h2 := congrArg (fun s => digitsVal 0 s.data) h
  simpa [pad3_val] using h2

/-- Fallback rule identifiers are injective in the counter. -/
theorem ruleIdStr_injective : Function.Injective ruleIdStr := by
  intro a b h
  apply pad3_injective
  have h2 : ("RULE_" ++ pad3 a).data = ("RULE_" ++ pad3 b).data :=
    congrArg String.data h
  rw [String.data_append, String.data_append] at h2
  exact String.ext (List.append_cancel_left h2)

/-! ### Structure of the fallback sentence loop -/

/-- The rule-id column of a concatenation. -/
theorem ruleIds_append (a b : List RawRule) :
    ruleIds (a ++ b) = ruleIds a ++ ruleIds b := by
  simp [ruleIds]

/-- One fallback loop iteration advances the counter by the number of rules
it emits, and those rules carry the consecutive identifiers starting at the
incoming counter. -/
theorem sentenceStep_spec (c : Nat) (s : String) :
    (sentenceStep c s).2 = c + (sentenceStep c s).1.length ∧
    ruleIds (sentenceStep c s).1 =
      (List.range' c (sentenceStep c s).1.length).map
        (fun k => some (ruleIdStr k)) := by
  unfold sentenceStep
  by_cases h0 : (pyStrip s).length < 20
  · simp [h0, ruleIds]
  · simp only [h0, if_false]
    by_cases h1 : matchesAny obligation_patterns (pyLower (pyStrip s)) = true <;>
    by_cases h2 : matchesAny restriction_patterns (pyLower (pyStrip s)) = true <;>
    by_cases h3 : matchesAny condition_patterns (pyLower (pyStrip s)) = true <;>
    by_cases h4 : matchesAny financial_patterns (pyLower (pyStrip s)) = true <;>
      simp [h1, h2, h3, h4, ruleIds, ruleIdStr, obligationRule, restrictionRule,
        conditionRule, financialRule, List.range']

/-- The identifiers accumulated by the fallback loop extend the accumulator
with a contiguous range starting at the incoming counter. -/
theorem fallbackLoop_ids (sents : List String) : ∀ (c : Nat) (acc : List RawRule),
    ∃ k, ruleIds (fallbackLoop sents c acc) =
      ruleIds acc ++ (List.range' c k).map (fun j => some (ruleIdStr j)) := by
  induction sents with
  | nil => intro c acc; exact ⟨0, by simp [fallbackLoop]⟩
  | cons s rest ih =>
    intro c acc
    obtain ⟨k, hk⟩ := ih (sentenceStep c s).2 (acc ++ (sentenceStep c s).1)
    refine ⟨k + (sentenceStep c s).1.length, ?_⟩
    rw [show fallbackLoop (s :: rest) c acc =
      fallbackLoop rest (sentenceStep c s).2 (acc ++ (sentenceStep c s).1) from rfl]
    rw [hk, ruleIds_append, (sentenceStep_spec c s).2, (sentenceStep_spec c s).1,
      List.append_assoc, ← List.map_append, List.range'_append_1]

/-- The fallback extractor's rules carry identifiers `RULE_001`, `RULE_002`,
…: a contiguous range starting at 1. -/
theorem fallbackRules_ids (text : String) :
    ∃ k, ruleIds (fallbackRules text) =
      (List.range' 1 k).map (fun j => some (ruleIdStr j)) := by
  obtain ⟨k, hk⟩ := fallbackLoop_ids (pySplitDot text) 1 []
  exact ⟨k, by simpa [ruleIds] using hk⟩

/-- The identifiers of the fallback extractor's rules are pairwise distinct. -/
theorem fallbackRules_ids_nodup (text : String) :
    (ruleIds (fallbackRules text)).Nodup := by
  obtain ⟨k, hk⟩ := fallbackRules_ids text
  rw [hk]
  apply List.Nodup.map
  · intro a b hab
    exact ruleIdStr_injective (Option.some.inj hab)
  · exact List.nodup_range' 1 k

/-- Membership in a conditional singleton. -/
theorem mem_ite_singleton {α : Type} {r x : α} {b : Bool}
    (h : r ∈ (if b = true then [x] else [])) : b = true ∧ r = x := by
  cases b
  · simp at h
  · simp at h; exact ⟨rfl, h⟩

/-- Any rule emitted for a sentence comes from a stripped sentence of at
least 20 characters and one of the four keyword sets the loop consults. -/
theorem mem_sentenceStep (c : Nat) (s : String) (r : RawRule)
    (h : r ∈ (sentenceStep c s).1) :
    20 ≤ (pyStrip s).length ∧
    ((matchesAny obligation_patterns (pyLower (pyStrip s)) = true ∧
        ∃ k, r = obligationRule k (pyStrip s)) ∨
     (matchesAny restriction_patterns (pyLower (pyStrip s)) = true ∧
        ∃ k, r = restrictionRule k (pyStrip s)) ∨
     (matchesAny condition_patterns (pyLower (pyStrip s)) = true ∧
        ∃ k, r = conditionRule k (pyStrip s)) ∨
     (matchesAny financial_patterns (pyLower (pyStrip s)) = true ∧
        ∃ k, r = financialRule k (pyStrip s))) := by
  unfold sentenceStep at h
  by_cases h0 : (pyStrip s).length < 20
  · rw [if_pos h0] at h; simp at h
  · rw [if_neg h0] at h
    dsimp only at h
    refine ⟨by omega, ?_⟩
    rcases List.mem_append.mp h with h | h
    · rcases List.mem_append.mp h with h | h
      · rcases List.mem_append.mp h with h | h
        · obtain ⟨hb, rfl⟩ := mem_ite_singleton h
          exact Or.inl ⟨hb, _, rfl⟩
        · obtain ⟨hb, rfl⟩ := mem_ite_singleton h
          exact Or.inr (Or.inl ⟨hb, _, rfl⟩)
      · obtain ⟨hb, rfl⟩ := mem_ite_singleton h
        exact Or.inr (Or.inr (Or.inl ⟨hb, _, rfl⟩))
    · obtain ⟨hb, rfl⟩ := mem_ite_singleton h
      exact Or.inr (Or.inr (Or.inr ⟨hb, _, rfl⟩))

/-- Any rule accumulated by the fallback loop is in the accumulator or was
emitted for one of the sentences. -/
theorem mem_fallbackLoop (sents : List String) : ∀ (c : Nat) (acc : List RawRule)
    (r : RawRule), r ∈ fallbackLoop sents c acc →
    r ∈ acc ∨ ∃ s ∈ sents, ∃ k, r ∈ (sentenceStep k s).1 := by
  induction sents with
  | nil => intro c acc r h; exact Or.inl h
  | cons s rest ih =>
    intro c acc r h
    rcases ih (sentenceStep c s).2 (acc ++ (sentenceStep c s).1) r h with
      h' | ⟨s', hs', k, hk⟩
    · rcases List.mem_append.mp h' with h'' | h''
      · exact Or.inl h''
      · exact Or.inr ⟨s, List.mem_cons_self s rest, c, h''⟩
    · exact Or.inr ⟨s', List.mem_cons_of_mem s hs', k, hk⟩

/-- A map cannot be duplicate-free when at least two list elements are sent
to the same value. -/
theorem nodup_map_constant_on {α β : Type} [DecidableEq β] {l : List α}
    {f : α → β} {p : α → Bool} {b : β}
    (h : ∀ x ∈ l, p x = true → f x = b)
    (h2 : 2 ≤ (l.filter p).length)
    (hnd : (l.map f).Nodup) : False := by
  have hc := List.nodup_iff_count_le_one.mp hnd b
  rw [List.count_eq_countP, List.countP_map] at hc
  have hfl : l.countP p = (l.filter p).length :=
    List.countP_eq_length_filter p l
  have hmono : l.countP p ≤ l.countP ((fun x => x == b) ∘ f) :=
    List.countP_mono_left (fun x hx hpx => by simp [Function.comp, h x hx hpx])
  omega

/-! ### Claim C4: rule-id uniqueness and auto-assignment -/

/-- C4 (amended): fallback-path rule identifiers are pairwise distinct and
every rule of an AI-parse result has a `rule_id` (auto-assigned when the
parsed object lacked one), but the auto-assigned value is the constant
`RULE_<n>` with `n` the number of parsed rules, so whenever at least two
parsed rules lack a `rule_id` the resulting document's identifiers are not
pairwise distinct. -/
theorem rule_ids_amended :
    (∀ text document_type,
      (ruleIds (generate_rules_fallback text document_type).business_rules).Nodup) ∧
    (∀ (jsonParse : String → Option ParsedDoc) (content provider : String),
      ∀ r ∈ (parse_ai_response jsonParse content provider).business_rules,
        r.rule_id.isSome = true) ∧
    (∀ (jsonParse : String → Option ParsedDoc) (content provider js : String)
      (pd : ParsedDoc), extractJsonStr content = some js → jsonParse js = some pd →
      2 ≤ ((pd.business_rules.getD []).filter (fun r => r.rule_id.isNone)).length →
      ¬ (ruleIds (parse_ai_response jsonParse content provider).business_rules).Nodup) := by
  refine ⟨?_, ?_, ?_⟩
  · intro text document_type
    have h := fallbackRules_ids_nodup text
    unfold generate_rules_fallback
    dsimp only
    split
    · rw [show ruleIds ((fallbackRules text).take 10) =
        (ruleIds (fallbackRules text)).take 10 from by simp [ruleIds, List.map_take]]
      exact List.Nodup.sublist (List.take_sublist 10 _) h
    · exact h
  · intro jsonParse content provider r hr
    unfold parse_ai_response at hr
    cases hjs : extractJsonStr content with
    | none =>
      rw [hjs] at hr
      simp [parseFailureDoc] at hr
    | some js =>
      rw [hjs] at hr
      dsimp only at hr
      cases hpd : jsonParse js with
      | none =>
        rw [hpd] at hr
        simp [parseFailureDoc] at hr
      | some pd =>
        rw [hpd] at hr
        dsimp only at hr
        obtain ⟨u, hu, rfl⟩ := List.mem_map.mp hr
        simp [fillRule]
  · intro jsonParse content provider js pd hjs hpd h2 hnd
    have hre : ruleIds (parse_ai_response jsonParse content provider).business_rules =
        (pd.business_rules.getD []).map
          ((fun r => r.rule_id) ∘ fillRule (pd.business_rules.getD []).length) := by
      simp [parse_ai_response, hjs, hpd, ruleIds, List.map_map]
    rw [hre] at hnd
    exact nodup_map_constant_on
      (b := some ("RULE_" ++ toString (pd.business_rules.getD []).length))
      (fun r _ hnone => by
        simp [Function.comp, fillRule, Option.isNone_iff_eq_none.mp hnone])
      h2 hnd

/-- C4 (counterexample to the claim as stated): a parsed response with two
rules both lacking `rule_id` yields a document whose two rules share the
identifier `RULE_2`. -/
theorem rule_ids_counterexample :
    ruleIds (parse_ai_response
      (fun _ => some ⟨some [⟨none, some "A", some "la", some "general", some [], none⟩,
        ⟨none, some "B", some "lb", some "general", some [], none⟩], some [], some []⟩)
      "\x7b\x7d" "groq").business_rules = [some "RULE_2", some "RULE_2"] := by
  decide

/-- C4 witness: the amended theorem's duplicate-identifier part applied to a
concrete parse result with two id-less rules. -/
theorem rule_ids_amended_witness :
    ¬ (ruleIds (parse_ai_response
      (fun _ => some ⟨some [⟨none, none, none, none, none, none⟩,
        ⟨none, none, none, none, none, none⟩], none, none⟩)
      "\x7b\x7d" "groq").business_rules).Nodup :=
  rule_ids_amended.2.2
    (fun _ => some ⟨some [⟨none, none, none, none, none, none⟩,
      ⟨none, none, none, none, none, none⟩], none, none⟩)
    "\x7b\x7d" "groq" "\x7b\x7d"
    ⟨some [⟨none, none, none, none, none, none⟩,
      ⟨none, none, none, none, none, none⟩], none, none⟩
    (by decide) rfl (by decide)

/-! ### Claim C5: the keyword sets the fallback loop consults -/

/-- C5 (amended): every rule the fallback extractor emits comes from a
stripped sentence of at least 20 characters matching one of the four
keyword sets the loop actually consults — obligation, restriction,
condition, financial — and is the corresponding templated rule embedding
that literal sentence; the termination (and deadline) keyword lists are
defined but never consulted. -/
theorem fallback_four_categories (text document_type : String) (r : RawRule)
    (h : r ∈ (generate_rules_fallback text document_type).business_rules) :
    ∃ sent ∈ pySplitDot text, 20 ≤ (pyStrip sent).length ∧
      ((matchesAny obligation_patterns (pyLower (pyStrip sent)) = true ∧
          ∃ k, r = obligationRule k (pyStrip sent)) ∨
       (matchesAny restriction_patterns (pyLower (pyStrip sent)) = true ∧
          ∃ k, r = restrictionRule k (pyStrip sent)) ∨
       (matchesAny condition_patterns (pyLower (pyStrip sent)) = true ∧
          ∃ k, r = conditionRule k (pyStrip sent)) ∨
       (matchesAny financial_patterns (pyLower (pyStrip sent)) = true ∧
          ∃ k, r = financialRule k (pyStrip sent))) := by
  have hmem : r ∈ fallbackRules text := by
    unfold generate_rules_fallback at h
    dsimp only at h
    split at h
    · exact List.take_subset _ _ h
    · exact h
  rcases mem_fallbackLoop (pySplitDot text) 1 [] r hmem with h' | ⟨s, hs, k, hk⟩
  · simp at h'
  · obtain ⟨h20, hcat⟩ := mem_sentenceStep k s r hk
    exact ⟨s, hs, h20, hcat⟩

/-- C5 (counterexample to the claim as stated): a 38-character sentence
containing the termination term `terminate` and no obligation, restriction,
condition or financial term yields no rule at all — the termination keyword
set is never consulted. -/
theorem fallback_termination_counterexample :
    (generate_rules_fallback "The agreement will terminate next year"
      "contract").business_rules = [] ∧
    strContains (pyLower "The agreement will terminate next year") "terminate" = true ∧
    20 ≤ (pyStrip "The agreement will terminate next year").length := by
  decide

/-- C5 witness: the amended theorem applied to the obligation rule emitted
for a concrete sentence containing `shall`. -/
theorem fallback_four_categories_witness :
    ∃ sent ∈ pySplitDot "The party shall deliver goods on time",
      20 ≤ (pyStrip sent).length ∧
      ((matchesAny obligation_patterns (pyLower (pyStrip sent)) = true ∧
          ∃ k, obligationRule 1 "The party shall deliver goods on time" =
            obligationRule k (pyStrip sent)) ∨
       (matchesAny restriction_patterns (pyLower (pyStrip sent)) = true ∧
          ∃ k, obligationRule 1 "The party shall deliver goods on time" =
            restrictionRule k (pyStrip sent)) ∨
       (matchesAny condition_patterns (pyLower (pyStrip sent)) = true ∧
          ∃ k, obligationRule 1 "The party shall deliver goods on time" =
            conditionRule k (pyStrip sent)) ∨
       (matchesAny financial_patterns (pyLower (pyStrip sent)) = true ∧
          ∃ k, obligationRule 1 "The party shall deliver goods on time" =
            financialRule k (pyStrip sent))) :=
  fallback_four_categories "The party shall deliver goods on time" "contract"
    (obligationRule 1 "The party shall deliver goods on time") (by decide)

end RuleForge